import Mathlib

/-!
Verification of the chat-provider adapter layer (credential store, message
translation, provider clients) against its implementation in
src/src/hooks/useGemini.ts.  Pure data is embedded directly; the two
service classes (OpenAIService, GeminiService) become explicit state
passing over a small record, and the single HTTP round trip of
createChatCompletion is parameterised by an explicit fetch outcome so
that every failure branch of the try/catch is a visible case.
-/

/-- Role of a uniform chat message: the union type of ChatMessage.role. -/
inductive Role where
  | system
  | user
  | assistant
deriving DecidableEq, Repr

/-- Uniform message shape used by callers and by Provider-A (ChatMessage). -/
structure ChatMessage where
  role : Role
  content : String
deriving DecidableEq, Repr

/-- Role of a Provider-B turn: the union type of GeminiMessage.role. -/
inductive GeminiRole where
  | user
  | model
deriving DecidableEq, Repr

/-- A Provider-B turn (GeminiMessage); each element of parts is the text of
one part block. -/
structure GeminiMessage where
  role : GeminiRole
  parts : List String
deriving DecidableEq, Repr

/-- Options accepted by both createChatCompletion entry points.  The source
type is { model?: string; temperature?: number; max_tokens?: number };
temperature is carried as a rational since the code does no arithmetic on
it beyond defaulting. -/
structure ApiOptions where
  model : Option String := none
  temperature : Option Rat := none
  max_tokens : Option Nat := none
deriving DecidableEq, Repr

/-- Per-service credential state: apiKey is the in-memory cache (the
private field, null when absent) and stored is the value held in durable
storage under the fixed per-provider key (null when absent). -/
structure ServiceState where
  apiKey : Option String
  stored : Option String
deriving DecidableEq, Repr

/-- JavaScript truthiness of a nullable string: null and the empty string
are falsy, every other string is truthy. -/
def jsTruthy : Option String → Bool
  | none => false
  | some s => s ≠ ""

/-- JavaScript a || b on a nullable string a with string fallback b:
returns a when truthy, otherwise b. -/
def jsStrOr (a : Option String) (b : String) : String :=
  match a with
  | none => b
  | some s => if s = "" then b else s

/-- A notification delivered through the toast side channel. -/
structure Toast where
  title : String
  description : String
  destructive : Bool
deriving DecidableEq, Repr

/-- Outcome of the single fetch performed by createChatCompletion, seen
from the awaiting code.  thrown: the fetch itself or a body json() call
rejected (network failure or malformed body), carrying the error message
when one exists.  httpError: response.ok was false and the error body
parsed, carrying error.error.message when present.  ok: a 2xx response
whose body parsed as the expected shape. -/
inductive FetchOutcome (β : Type) where
  | thrown (message : Option String)
  | httpError (errorMessage : Option String)
  | ok (body : β)
deriving DecidableEq, Repr

/-- Everything observable from one createChatCompletion call: the value
returned to the caller, the service state afterwards, the toasts emitted,
and the request sent over the network when one was sent at all. -/
structure CompletionResult (ρ : Type) where
  result : Option ChatMessage
  state : ServiceState
  notifications : List Toast
  request : Option ρ
deriving DecidableEq, Repr

/-- One choice of a Provider-A completion response. -/
structure Choice where
  index : Nat
  message : ChatMessage
  finish_reason : String
deriving DecidableEq, Repr

/-- Provider-A completion response body (the fields the code reads). -/
structure OpenAICompletionResponse where
  choices : List Choice
deriving DecidableEq, Repr

/-- Content of one Provider-B candidate; each element of parts is the text
of one part. -/
structure GeminiContent where
  parts : List String
  role : String
deriving DecidableEq, Repr

/-- One candidate of a Provider-B response. -/
structure GeminiCandidate where
  content : GeminiContent
  finishReason : String
deriving DecidableEq, Repr

/-- Provider-B response body; candidates is none when the field is absent
from the JSON, mirroring the explicit !data.candidates check. -/
structure GeminiResponse where
  candidates : Option (List GeminiCandidate)
deriving DecidableEq, Repr

/-- The Provider-A request: the JSON body of the POST to
{baseUrl}/chat/completions. -/
structure OpenAIRequest where
  model : String
  messages : List ChatMessage
  temperature : Rat
  max_tokens : Option Nat
deriving DecidableEq, Repr

/-- The Provider-B request: model rides in the URL path
{baseUrl}/models/{model}:generateContent, the rest is the JSON body
(contents plus generationConfig). -/
structure GeminiRequest where
  model : String
  contents : List GeminiMessage
  temperature : Rat
  maxOutputTokens : Option Nat
deriving DecidableEq, Repr

/-- Message of the TypeError raised by reading a property of undefined
when an indexed element is missing; engine dependent but always truthy. -/
def undefinedPropertyMessage : String :=
  "TypeError: cannot read property of undefined"

namespace OpenAIService

/-- OpenAIService.defaultModel. -/
def defaultModel : String := "gpt-4o-mini"

/-- OpenAIService.setApiKey: writes the cache and durable storage, always
returns true. -/
def setApiKey (s : ServiceState) (apiKey : String) : ServiceState × Bool :=
  ({ apiKey := some apiKey, stored := some apiKey }, true)

/-- OpenAIService.getApiKey: returns the cache when truthy; otherwise
reads durable storage, repopulating the cache only when the stored value
is truthy, and returns the cache field as it then stands. -/
def getApiKey (s : ServiceState) : Option String × ServiceState :=
  if jsTruthy s.apiKey then (s.apiKey, s)
  else
    match s.stored with
    | some storedKey =>
        if storedKey ≠ "" then (some storedKey, { apiKey := some storedKey, stored := s.stored })
        else (s.apiKey, s)
    | none => (s.apiKey, s)

/-- OpenAIService.clearApiKey: nulls the cache and removes the stored
value. -/
def clearApiKey (s : ServiceState) : ServiceState :=
  { apiKey := none, stored := none }

/-- The toast emitted when the Provider-A key resolves falsy. -/
def missingKeyToast : Toast :=
  { title := "API Key Missing",
    description := "Please set your OpenAI API key in the settings",
    destructive := true }

/-- The toast emitted by the catch block of Provider-A with the caught
error message as description. -/
def requestFailedToast (description : String) : Toast :=
  { title := "AI Request Failed", description := description, destructive := true }

/-- The part of the Provider-A try block that follows the fetch: non-ok
responses throw error.error.message falling back to the fixed connect
message, a 2xx body yields choices[0].message (throwing a TypeError when
choices is empty).  Errors are the caught description after the
error.message fallback of the catch block. -/
def parseOutcome (outcome : FetchOutcome OpenAICompletionResponse) :
    Except String ChatMessage :=
  match outcome with
  | .thrown message => .error (jsStrOr message "Something went wrong")
  | .httpError errorMessage =>
      .error (jsStrOr errorMessage "Failed to connect to OpenAI API")
  | .ok data =>
      match data.choices with
      | [] => .error undefinedPropertyMessage
      | c :: _ => .ok c.message

/-- OpenAIService.createChatCompletion: resolve the key (falsy means
missing toast, null result, no request); otherwise build the request body
with model defaulting through || and temperature through the nullish
operator, send it, and absorb every failure of the round trip into a
failed toast plus a null result. -/
def createChatCompletion (s : ServiceState) (messages : List ChatMessage)
    (options : ApiOptions) (outcome : FetchOutcome OpenAICompletionResponse) :
    CompletionResult OpenAIRequest :=
  let keyed := getApiKey s
  if jsTruthy keyed.1 then
    let req : OpenAIRequest :=
      { model := jsStrOr options.model defaultModel,
        messages := messages,
        temperature := options.temperature.getD (7 / 10),
        max_tokens := options.max_tokens }
    match parseOutcome outcome with
    | .ok m =>
        { result := some m, state := keyed.2, notifications := [], request := some req }
    | .error e =>
        { result := none, state := keyed.2,
          notifications := [requestFailedToast e], request := some req }
  else
    { result := none, state := keyed.2,
      notifications := [missingKeyToast], request := none }

end OpenAIService

namespace GeminiService

/-- GeminiService.defaultModel. -/
def defaultModel : String := "gemini-pro"

/-- GeminiService.setApiKey: writes the cache and durable storage, always
returns true. -/
def setApiKey (s : ServiceState) (apiKey : String) : ServiceState × Bool :=
  ({ apiKey := some apiKey, stored := some apiKey }, true)

/-- GeminiService.getApiKey: returns the cache when truthy; otherwise
reads durable storage, repopulating the cache only when the stored value
is truthy, and returns the cache field as it then stands. -/
def getApiKey (s : ServiceState) : Option String × ServiceState :=
  if jsTruthy s.apiKey then (s.apiKey, s)
  else
    match s.stored with
    | some storedKey =>
        if storedKey ≠ "" then (some storedKey, { apiKey := some storedKey, stored := s.stored })
        else (s.apiKey, s)
    | none => (s.apiKey, s)

/-- GeminiService.clearApiKey: nulls the cache and removes the stored
value. -/
def clearApiKey (s : ServiceState) : ServiceState :=
  { apiKey := none, stored := none }

/-- GeminiService.convertToGeminiMessages: drop system messages, relabel
assistant as model and everything else as user, wrap the content as the
single text part. -/
def convertToGeminiMessages (messages : List ChatMessage) : List GeminiMessage :=
  (messages.filter (fun msg => msg.role ≠ Role.system)).map (fun msg =>
    { role := if msg.role = Role.assistant then GeminiRole.model else GeminiRole.user,
      parts := [msg.content] })

/-- The contents actually sent: convertToGeminiMessages followed by the
system-merge step of createChatCompletion (find the system message; when
one exists and the first converted turn is a user turn, prepend its
content and two newlines to that first turn's first part). -/
def buildContents (messages : List ChatMessage) : List GeminiMessage :=
  let systemMessage := messages.find? (fun msg => msg.role = Role.system)
  let geminiMessages := convertToGeminiMessages messages
  match systemMessage, geminiMessages with
  | some sys, first :: rest =>
      if first.role = GeminiRole.user then
        { first with
          parts :=
            match first.parts with
            | t :: ts => (sys.content ++ "\n\n" ++ t) :: ts
            | [] => first.parts } :: rest
      else first :: rest
  | _, _ => geminiMessages

/-- The toast emitted when the Provider-B key resolves falsy. -/
def missingKeyToast : Toast :=
  { title := "API Key Missing",
    description := "Please set your Gemini API key in the settings",
    destructive := true }

/-- The toast emitted by the catch block of Provider-B with the caught
error message as description. -/
def requestFailedToast (description : String) : Toast :=
  { title := "AI Request Failed", description := description, destructive := true }

/-- The message thrown when candidates is absent or empty: the
EmptyResponse classification. -/
def emptyResponseMessage : String := "No response generated from Gemini API"

/-- The part of the Provider-B try block that follows the fetch: non-ok
responses throw error.error.message falling back to the fixed connect
message; a 2xx body with no candidates throws the EmptyResponse message;
otherwise candidates[0].content.parts[0].text becomes an assistant
message (reading parts[0] of an empty parts list throws a TypeError).
Errors are the caught description after the error.message fallback of the
catch block. -/
def parseOutcome (outcome : FetchOutcome GeminiResponse) :
    Except String ChatMessage :=
  match outcome with
  | .thrown message => .error (jsStrOr message "Something went wrong")
  | .httpError errorMessage =>
      .error (jsStrOr errorMessage "Failed to connect to Gemini API")
  | .ok data =>
      match data.candidates with
      | none => .error emptyResponseMessage
      | some [] => .error emptyResponseMessage
      | some (c :: _) =>
          match c.content.parts with
          | [] => .error undefinedPropertyMessage
          | t :: _ => .ok { role := Role.assistant, content := t }

/-- GeminiService.createChatCompletion: resolve the key (falsy means
missing toast, null result, no request); otherwise build the request
(contents through buildContents, model defaulting through ||, temperature
through the nullish operator), send it, and absorb every failure of the
round trip into a failed toast plus a null result. -/
def createChatCompletion (s : ServiceState) (messages : List ChatMessage)
    (options : ApiOptions) (outcome : FetchOutcome GeminiResponse) :
    CompletionResult GeminiRequest :=
  let keyed := getApiKey s
  if jsTruthy keyed.1 then
    let req : GeminiRequest :=
      { model := jsStrOr options.model defaultModel,
        contents := buildContents messages,
        temperature := options.temperature.getD (7 / 10),
        maxOutputTokens := options.max_tokens }
    match parseOutcome outcome with
    | .ok m =>
        { result := some m, state := keyed.2, notifications := [], request := some req }
    | .error e =>
        { result := none, state := keyed.2,
          notifications := [requestFailedToast e], request := some req }
  else
    { result := none, state := keyed.2,
      notifications := [missingKeyToast], request := none }

end GeminiService

/-- C7: clearing the credential removes it from both the memory cache and
durable storage, so a subsequent read resolves absent, from every prior
state of either store. -/
theorem clearKey_then_getKey_absent (sa sb : ServiceState) :
    OpenAIService.clearApiKey sa = { apiKey := none, stored := none } ∧
    (OpenAIService.getApiKey (OpenAIService.clearApiKey sa)).1 = none ∧
    GeminiService.clearApiKey sb = { apiKey := none, stored := none } ∧
    (GeminiService.getApiKey (GeminiService.clearApiKey sb)).1 = none :=
  ⟨rfl, rfl, rfl, rfl⟩

/-- C6 counterexample: with the empty-string secret, getKey after setKey
does not return the secret once the cache is reset, even though durable
storage still holds it. -/
theorem empty_secret_lost_after_cache_reset :
    (GeminiService.setApiKey { apiKey := none, stored := none } "").2 = true ∧
    ((GeminiService.setApiKey { apiKey := none, stored := none } "").1).stored = some "" ∧
    (GeminiService.getApiKey
        { apiKey := none,
          stored := ((GeminiService.setApiKey { apiKey := none, stored := none } "").1).stored }).1
      ≠ some "" := by
  refine ⟨rfl, rfl, ?_⟩
  decide

/-- C6 amended: for every nonempty secret, getKey after setKey returns
the secret, both immediately and after the memory cache is reset while
durable storage is intact. -/
theorem getKey_roundtrip_nonempty (s : ServiceState) (x : String) (hx : x ≠ "") :
    (GeminiService.getApiKey (GeminiService.setApiKey s x).1).1 = some x ∧
    (GeminiService.getApiKey
        { apiKey := none, stored := ((GeminiService.setApiKey s x).1).stored }).1 = some x := by
  constructor
  · simp [GeminiService.setApiKey, GeminiService.getApiKey, jsTruthy, hx]
  · simp [GeminiService.setApiKey, GeminiService.getApiKey, jsTruthy, hx]

/-- Witness for the amended C6 at the secret "X". -/
theorem getKey_roundtrip_nonempty_witness :
    (GeminiService.getApiKey (GeminiService.setApiKey ⟨none, none⟩ "X").1).1 = some "X" ∧
    (GeminiService.getApiKey
        { apiKey := none,
          stored := ((GeminiService.setApiKey ⟨none, none⟩ "X").1).stored }).1 = some "X" :=
  getKey_roundtrip_nonempty ⟨none, none⟩ "X" (by decide)

/-- C10: the empty-string credential is accepted by setApiKey (reported
saved, written to cache and storage), read back by an immediate
getApiKey, yet treated as missing by createChatCompletion (missing toast,
null result, no request), and lost by getApiKey once the cache is reset
even though storage still holds it. -/
theorem empty_string_credential_inconsistency (s : ServiceState)
    (messages : List ChatMessage) (options : ApiOptions)
    (outcome : FetchOutcome GeminiResponse) :
    GeminiService.setApiKey s "" = ({ apiKey := some "", stored := some "" }, true) ∧
    (GeminiService.getApiKey { apiKey := some "", stored := some "" }).1 = some "" ∧
    GeminiService.createChatCompletion { apiKey := some "", stored := some "" }
        messages options outcome =
      { result := none, state := { apiKey := some "", stored := some "" },
        notifications := [GeminiService.missingKeyToast], request := none } ∧
    (GeminiService.getApiKey { apiKey := none, stored := some "" }).1 = none := by
  refine ⟨rfl, rfl, ?_, rfl⟩
  simp [GeminiService.createChatCompletion, GeminiService.getApiKey, jsTruthy]

/-- C4: when the credential resolves falsy, either createChatCompletion
returns absent, emits exactly the one missing-key toast, and sends no
request. -/
theorem missing_credential_behavior (sa sb : ServiceState)
    (messages : List ChatMessage) (options : ApiOptions)
    (oa : FetchOutcome OpenAICompletionResponse) (ob : FetchOutcome GeminiResponse)
    (ha : jsTruthy (OpenAIService.getApiKey sa).1 = false)
    (hb : jsTruthy (GeminiService.getApiKey sb).1 = false) :
    OpenAIService.createChatCompletion sa messages options oa =
      { result := none, state := (OpenAIService.getApiKey sa).2,
        notifications := [OpenAIService.missingKeyToast], request := none } ∧
    GeminiService.createChatCompletion sb messages options ob =
      { result := none, state := (GeminiService.getApiKey sb).2,
        notifications := [GeminiService.missingKeyToast], request := none } := by
  constructor
  · simp [OpenAIService.createChatCompletion, ha]
  · simp [GeminiService.createChatCompletion, hb]

/-- Witness for C4 at the never-set store. -/
theorem missing_credential_behavior_witness :
    OpenAIService.createChatCompletion ⟨none, none⟩ [] {} (.thrown none) =
      { result := none, state := (OpenAIService.getApiKey ⟨none, none⟩).2,
        notifications := [OpenAIService.missingKeyToast], request := none } ∧
    GeminiService.createChatCompletion ⟨none, none⟩ [] {} (.thrown none) =
      { result := none, state := (GeminiService.getApiKey ⟨none, none⟩).2,
        notifications := [GeminiService.missingKeyToast], request := none } :=
  missing_credential_behavior ⟨none, none⟩ ⟨none, none⟩ [] {} (.thrown none) (.thrown none)
    (by decide) (by decide)

/-- C9: on a 2xx Provider-A response with a non-empty choices list, the
first choice's message is returned exactly as received. -/
theorem providerA_first_choice_verbatim (s : ServiceState) (messages : List ChatMessage)
    (options : ApiOptions) (data : OpenAICompletionResponse) (c : Choice) (cs : List Choice)
    (hk : jsTruthy (OpenAIService.getApiKey s).1 = true)
    (hc : data.choices = c :: cs) :
    (OpenAIService.createChatCompletion s messages options (.ok data)).result =
      some c.message := by
  simp [OpenAIService.createChatCompletion, OpenAIService.parseOutcome, hk, hc]

/-- Witness for C9: a one-choice response is passed through verbatim. -/
theorem providerA_first_choice_verbatim_witness :
    (OpenAIService.createChatCompletion ⟨some "k", some "k"⟩ [] {}
        (.ok { choices := [{ index := 0,
                             message := { role := Role.assistant, content := "hello" },
                             finish_reason := "stop" }] })).result =
      some { role := Role.assistant, content := "hello" } :=
  providerA_first_choice_verbatim ⟨some "k", some "k"⟩ [] {} _ _ [] (by decide) rfl

/-- Every successful Provider-B parse yields a message with role
assistant. -/
theorem GeminiService.parseOutcome_ok_role (outcome : FetchOutcome GeminiResponse)
    (m : ChatMessage) (h : GeminiService.parseOutcome outcome = .ok m) :
    m.role = Role.assistant := by
  cases outcome with
  | thrown message => simp [GeminiService.parseOutcome] at h
  | httpError errorMessage => simp [GeminiService.parseOutcome] at h
  | ok data =>
      obtain ⟨cands⟩ := data
      cases cands with
      | none => simp [GeminiService.parseOutcome] at h
      | some l =>
          cases l with
          | nil => simp [GeminiService.parseOutcome] at h
          | cons c cs =>
              cases hp : c.content.parts with
              | nil => simp [GeminiService.parseOutcome, hp] at h
              | cons t ts =>
                  simp [GeminiService.parseOutcome, hp] at h
                  rw [← h]

/-- C3 counterexample: a 2xx Provider-A response whose first choice
carries a non-assistant role is returned as is, so the client can hand
back a uniform message that is not an assistant message. -/
theorem providerA_returns_nonassistant_message :
    (OpenAIService.createChatCompletion ⟨some "k", some "k"⟩ [] {}
        (.ok { choices := [{ index := 0,
                             message := { role := Role.user, content := "x" },
                             finish_reason := "stop" }] })).result =
      some { role := Role.user, content := "x" } ∧
    Role.user ≠ Role.assistant := by
  exact ⟨rfl, by decide⟩

/-- C3 amended: neither client ever propagates a failure to its caller;
every call terminates in either a returned uniform message with no
failure toast (role assistant for Provider-B, the role the provider sent
for Provider-A) or absent paired with a notification. -/
theorem clients_absorb_all_failures (sa sb : ServiceState) (messages : List ChatMessage)
    (options : ApiOptions) (oa : FetchOutcome OpenAICompletionResponse)
    (ob : FetchOutcome GeminiResponse) :
    ((OpenAIService.createChatCompletion sa messages options oa).result = none ∧
       (OpenAIService.createChatCompletion sa messages options oa).notifications ≠ [] ∨
     ∃ m, (OpenAIService.createChatCompletion sa messages options oa).result = some m ∧
       (OpenAIService.createChatCompletion sa messages options oa).notifications = []) ∧
    ((GeminiService.createChatCompletion sb messages options ob).result = none ∧
       (GeminiService.createChatCompletion sb messages options ob).notifications ≠ [] ∨
     ∃ m, (GeminiService.createChatCompletion sb messages options ob).result = some m ∧
       m.role = Role.assistant ∧
       (GeminiService.createChatCompletion sb messages options ob).notifications = []) := by
  constructor
  · cases hk : jsTruthy (OpenAIService.getApiKey sa).1 with
    | false =>
        left
        constructor <;> simp [OpenAIService.createChatCompletion, hk]
    | true =>
        cases h : OpenAIService.parseOutcome oa with
        | error e =>
            left
            constructor <;> simp [OpenAIService.createChatCompletion, hk, h]
        | ok m =>
            right
            exact ⟨m, by simp [OpenAIService.createChatCompletion, hk, h],
              by simp [OpenAIService.createChatCompletion, hk, h]⟩
  · cases hk : jsTruthy (GeminiService.getApiKey sb).1 with
    | false =>
        left
        constructor <;> simp [GeminiService.createChatCompletion, hk]
    | true =>
        cases h : GeminiService.parseOutcome ob with
        | error e =>
            left
            constructor <;> simp [GeminiService.createChatCompletion, hk, h]
        | ok m =>
            right
            exact ⟨m, by simp [GeminiService.createChatCompletion, hk, h],
              GeminiService.parseOutcome_ok_role ob m h,
              by simp [GeminiService.createChatCompletion, hk, h]⟩

/-- C5 counterexample: a 2xx Provider-B response with exactly one
candidate whose content has no parts makes the client return absent (the
read of the missing first part is caught), not an assistant message. -/
theorem gemini_partless_candidate_yields_absent :
    (GeminiService.createChatCompletion ⟨some "k", some "k"⟩ [] {}
        (.ok { candidates := some [{ content := { parts := [], role := "model" },
                                     finishReason := "STOP" }] })).result = none ∧
    [({ content := { parts := [], role := "model" },
        finishReason := "STOP" } : GeminiCandidate)].length = 1 := by
  exact ⟨rfl, rfl⟩

/-- C5 amended: on a 2xx Provider-B response, absent or empty candidates
yield an absent result classified EmptyResponse, and a first candidate
with at least one part yields the assistant message built from that first
part with no failure toast. -/
theorem gemini_response_translation (s : ServiceState) (messages : List ChatMessage)
    (options : ApiOptions) (data : GeminiResponse)
    (hk : jsTruthy (GeminiService.getApiKey s).1 = true) :
    ((data.candidates = none ∨ data.candidates = some []) →
      (GeminiService.createChatCompletion s messages options (.ok data)).result = none ∧
      (GeminiService.createChatCompletion s messages options (.ok data)).notifications =
        [GeminiService.requestFailedToast GeminiService.emptyResponseMessage]) ∧
    (∀ c cs t ts, data.candidates = some (c :: cs) → c.content.parts = t :: ts →
      (GeminiService.createChatCompletion s messages options (.ok data)).result =
        some { role := Role.assistant, content := t } ∧
      (GeminiService.createChatCompletion s messages options (.ok data)).notifications = []) := by
  constructor
  · rintro (hc | hc) <;>
      constructor <;>
        simp [GeminiService.createChatCompletion, GeminiService.parseOutcome, hk, hc]
  · intro c cs t ts hc hp
    constructor <;>
      simp [GeminiService.createChatCompletion, GeminiService.parseOutcome, hk, hc, hp]

/-- Witness for the amended C5: an empty candidate list yields absent
with the EmptyResponse toast. -/
theorem gemini_response_translation_witness :
    (GeminiService.createChatCompletion ⟨some "k", some "k"⟩ [] {}
        (.ok { candidates := some [] })).result = none ∧
    (GeminiService.createChatCompletion ⟨some "k", some "k"⟩ [] {}
        (.ok { candidates := some [] })).notifications =
      [GeminiService.requestFailedToast GeminiService.emptyResponseMessage] :=
  (gemini_response_translation ⟨some "k", some "k"⟩ [] {} { candidates := some [] }
      (by decide)).1 (Or.inr rfl)

/-- C8 counterexample: an explicitly supplied empty-string model is
replaced by the per-provider default (the || fallback fires on every
falsy value), although options.model is set. -/
theorem empty_model_option_gets_default :
    ((OpenAIService.createChatCompletion ⟨some "k", some "k"⟩ [] { model := some "" }
        (.thrown none)).request =
      some { model := "gpt-4o-mini", messages := [], temperature := 7 / 10,
             max_tokens := none }) ∧
    (some "" : Option String) ≠ none := by
  exact ⟨rfl, by decide⟩

/-- C8 amended: whenever a request is sent, its model is the fixed
per-provider default exactly when options.model is unset or set to the
empty string and is otherwise the supplied value, and its temperature is
0.7 exactly when options.temperature is unset and is otherwise the
supplied value (an explicit 0 is sent as 0). -/
theorem request_body_defaults (sa sb : ServiceState) (messages : List ChatMessage)
    (options : ApiOptions) (oa : FetchOutcome OpenAICompletionResponse)
    (ob : FetchOutcome GeminiResponse)
    (ha : jsTruthy (OpenAIService.getApiKey sa).1 = true)
    (hb : jsTruthy (GeminiService.getApiKey sb).1 = true) :
    (∃ ra, (OpenAIService.createChatCompletion sa messages options oa).request = some ra ∧
      (options.model = none → ra.model = "gpt-4o-mini") ∧
      (options.model = some "" → ra.model = "gpt-4o-mini") ∧
      (∀ m, options.model = some m → m ≠ "" → ra.model = m) ∧
      (options.temperature = none → ra.temperature = 7 / 10) ∧
      (∀ t, options.temperature = some t → ra.temperature = t)) ∧
    (∃ rb, (GeminiService.createChatCompletion sb messages options ob).request = some rb ∧
      (options.model = none → rb.model = "gemini-pro") ∧
      (options.model = some "" → rb.model = "gemini-pro") ∧
      (∀ m, options.model = some m → m ≠ "" → rb.model = m) ∧
      (options.temperature = none → rb.temperature = 7 / 10) ∧
      (∀ t, options.temperature = some t → rb.temperature = t)) := by
  constructor
  · refine ⟨{ model := jsStrOr options.model OpenAIService.defaultModel,
              messages := messages,
              temperature := options.temperature.getD (7 / 10),
              max_tokens := options.max_tokens }, ?_, ?_, ?_, ?_, ?_, ?_⟩
    · cases h : OpenAIService.parseOutcome oa with
      | ok m => simp [OpenAIService.createChatCompletion, ha, h]
      | error e => simp [OpenAIService.createChatCompletion, ha, h]
    · intro h; simp [h, jsStrOr, OpenAIService.defaultModel]
    · intro h; simp [h, jsStrOr, OpenAIService.defaultModel]
    · intro m h hm; simp [h, jsStrOr, hm]
    · intro h; simp [h]
    · intro t h; simp [h]
  · refine ⟨{ model := jsStrOr options.model GeminiService.defaultModel,
              contents := GeminiService.buildContents messages,
              temperature := options.temperature.getD (7 / 10),
              maxOutputTokens := options.max_tokens }, ?_, ?_, ?_, ?_, ?_, ?_⟩
    · cases h : GeminiService.parseOutcome ob with
      | ok m => simp [GeminiService.createChatCompletion, hb, h]
      | error e => simp [GeminiService.createChatCompletion, hb, h]
    · intro h; simp [h, jsStrOr, GeminiService.defaultModel]
    · intro h; simp [h, jsStrOr, GeminiService.defaultModel]
    · intro m h hm; simp [h, jsStrOr, hm]
    · intro h; simp [h]
    · intro t h; simp [h]

/-- Witness for the amended C8 with both options unset. -/
theorem request_body_defaults_witness :
    (∃ ra, (OpenAIService.createChatCompletion ⟨some "k", some "k"⟩ [] {}
        (.thrown none)).request = some ra ∧
      ((({} : ApiOptions)).model = none → ra.model = "gpt-4o-mini") ∧
      ((({} : ApiOptions)).model = some "" → ra.model = "gpt-4o-mini") ∧
      (∀ m, (({} : ApiOptions)).model = some m → m ≠ "" → ra.model = m) ∧
      ((({} : ApiOptions)).temperature = none → ra.temperature = 7 / 10) ∧
      (∀ t, (({} : ApiOptions)).temperature = some t → ra.temperature = t)) ∧
    (∃ rb, (GeminiService.createChatCompletion ⟨some "k", some "k"⟩ [] {}
        (.thrown none)).request = some rb ∧
      ((({} : ApiOptions)).model = none → rb.model = "gemini-pro") ∧
      ((({} : ApiOptions)).model = some "" → rb.model = "gemini-pro") ∧
      (∀ m, (({} : ApiOptions)).model = some m → m ≠ "" → rb.model = m) ∧
      ((({} : ApiOptions)).temperature = none → rb.temperature = 7 / 10) ∧
      (∀ t, (({} : ApiOptions)).temperature = some t → rb.temperature = t)) :=
  request_body_defaults ⟨some "k", some "k"⟩ ⟨some "k", some "k"⟩ [] {}
    (.thrown none) (.thrown none) (by decide) (by decide)

/-- C2: with no system message present, the Provider-B translation keeps
every message in order, relabels assistant as model and user as user, and
wraps each content unchanged as the single text part of its turn. -/
theorem providerB_no_system_translation (messages : List ChatMessage)
    (h : ∀ m ∈ messages, m.role ≠ Role.system) :
    GeminiService.buildContents messages =
      messages.map (fun m =>
        { role := if m.role = Role.assistant then GeminiRole.model else GeminiRole.user,
          parts := [m.content] }) ∧
    (GeminiService.buildContents messages).length = messages.length := by
  have hfind : messages.find? (fun msg => msg.role = Role.system) = none := by
    rw [List.find?_eq_none]
    intro x hx
    simpa using h x hx
  have hfilter : messages.filter (fun msg => msg.role ≠ Role.system) = messages := by
    rw [List.filter_eq_self]
    intro a ha
    simpa using h a ha
  have heq : GeminiService.buildContents messages =
      messages.map (fun m =>
        { role := if m.role = Role.assistant then GeminiRole.model else GeminiRole.user,
          parts := [m.content] }) := by
    simp only [ne_eq, decide_not] at hfilter
    simp [GeminiService.buildContents, GeminiService.convertToGeminiMessages, hfind, hfilter]
  refine ⟨heq, ?_⟩
  rw [heq, List.length_map]

/-- Witness for C2 on a two-message conversation without a system turn. -/
theorem providerB_no_system_translation_witness :
    GeminiService.buildContents
        [{ role := Role.user, content := "a" }, { role := Role.assistant, content := "b" }] =
      [{ role := GeminiRole.user, parts := ["a"] },
       { role := GeminiRole.model, parts := ["b"] }] ∧
    (GeminiService.buildContents
        [{ role := Role.user, content := "a" },
         { role := Role.assistant, content := "b" }]).length = 2 := by
  have h := providerB_no_system_translation
      [{ role := Role.user, content := "a" }, { role := Role.assistant, content := "b" }]
      (by decide)
  simpa using h

/-- C1: with a system message present and the first non-system message a
user message, the Provider-B translation merges the system content, two
newlines, and that first user content into the first turn's text, and
every other turn is the plain translation of the remaining non-system
messages — no separate system turn is emitted. -/
theorem providerB_system_merge (messages : List ChatMessage) (sys u : ChatMessage)
    (rest : List ChatMessage)
    (hfind : messages.find? (fun msg => msg.role = Role.system) = some sys)
    (hfilter : messages.filter (fun msg => msg.role ≠ Role.system) = u :: rest)
    (hu : u.role = Role.user) :
    GeminiService.buildContents messages =
      { role := GeminiRole.user, parts := [sys.content ++ "\n\n" ++ u.content] } ::
        rest.map (fun m =>
          { role := if m.role = Role.assistant then GeminiRole.model else GeminiRole.user,
            parts := [m.content] }) := by
  simp only [ne_eq, decide_not] at hfilter
  simp [GeminiService.buildContents, GeminiService.convertToGeminiMessages, hfind, hfilter, hu]

/-- Witness for C1: the spec example conversation, one system then one
user message. -/
theorem providerB_system_merge_witness :
    GeminiService.buildContents
        [{ role := Role.system, content := "Be terse." },
         { role := Role.user, content := "Hi" }] =
      [{ role := GeminiRole.user, parts := ["Be terse.\n\nHi"] }] := by
  have h := providerB_system_merge
      [{ role := Role.system, content := "Be terse." }, { role := Role.user, content := "Hi" }]
      { role := Role.system, content := "Be terse." }
      { role := Role.user, content := "Hi" } []
      (by decide) (by decide) (by decide)
  simpa using h
